import Mathlib

/-!
Verification of the memory-management core of the rustbelt kernel corpus:
a fixed-depth buddy frame allocator (src/memory/buddy.rs), a frame-allocator
facade (src/memory/alloc.rs), and a four-level recursive page-table mapper
(src/memory/paging/{entry,table,mapper,mod,temporary_page}.rs).

The buddy tree is embedded with its cell array as a total function
`Nat → Node` (the Rust code uses a fixed array of `(1 << (LEVELS+1)) - 1`
cells; every in-bounds access of the source is mirrored exactly, and the
places where the Rust code would panic — array index out of bounds and
usize subtraction underflow — are modelled explicitly with `Option` /
dedicated result constructors).

The page-table side models physical memory as a total map from physical
frame number to a 512-entry table of raw 64-bit entry words.  The
recursive-mapping address trick of table.rs (`(table_address << 9) |
(index << 12)`) is hardware-resolved: following such a virtual address
lands in the physical frame stored in bits 12–51 of the entry, so
`next_table` is embedded as following `(entry &&& FLAG_MASK) / 4096` when
the entry is PRESENT and not HUGE_PAGE — exactly the walk the MMU performs
for the code's recursive addresses.  `Entry::frame_pointer` itself is
embedded exactly as written in entry.rs (it returns `raw & FLAG_MASK`
without dividing by the page size).
-/

/-- Node state of a buddy-tree cell, from `enum Node` in src/memory/buddy.rs. -/
inductive Node where
  | Unused
  | Used
  | Split
  | Full
deriving DecidableEq, Repr

/-- Buddy tree from `struct Buddy` in src/memory/buddy.rs: a depth ceiling
`levels` and the flattened complete binary tree of cells.  The Rust array of
`(1 << (LEVELS+1)) - 1` cells is modelled as a total function; the source's
bounds checks are mirrored where they occur. -/
structure Buddy where
  levels : Nat
  tree : Nat → Node

/-- Number of cells of the backing array: `SIZE = (1 << LEVELS + 1) - 1`
(Rust parses this as `(1 << (LEVELS + 1)) - 1`). -/
def buddySize (levels : Nat) : Nat := 2 ^ (levels + 1) - 1

/-- Pointwise update of the cell array (`self.tree[i] = v`). -/
def treeSet (t : Nat → Node) (i : Nat) (v : Node) : Nat → Node :=
  fun j => if j = i then v else t j

/-- Test `Used | Full`, as in lines 178-179 of buddy.rs. -/
def usedOrFull (n : Node) : Bool :=
  n = Node.Full || n = Node.Used

/-- The parent-recomputation rule of `Buddy::update_parents` (buddy.rs
lines 178-189): Full when both children are Used-or-Full, Unused when both
children are Unused, Split otherwise. -/
def nodeRule (l r : Node) : Node :=
  if usedOrFull l && usedOrFull r then Node.Full
  else if l = Node.Unused && r = Node.Unused then Node.Unused
  else Node.Split

/-- Fueled body of `Buddy::update_parents` (buddy.rs lines 174-195):
recompute the cell at `index` from its two children, stop at the root, else
recurse on the parent `(index + 1) / 2 - 1`.  The recursion is structural on
`fuel` so that the kernel can evaluate it; the index strictly decreases at
every step, so any `fuel > index` makes the fuel-out branch unreachable. -/
def upGo (fuel : Nat) (t : Nat → Node) (index : Nat) : Nat → Node :=
  match fuel with
  | 0 => t
  | fuel + 1 =>
    let t1 := treeSet t index (nodeRule (t (2 * index + 1)) (t (2 * index + 2)))
    if index = 0 then t1
    else upGo fuel t1 ((index + 1) / 2 - 1)

/-- `Buddy::update_parents`, with always-sufficient fuel `index + 1`. -/
def updateParents (t : Nat → Node) (index : Nat) : Nat → Node :=
  upGo (index + 1) t index

/-- Fueled body of `Buddy::update_children` (buddy.rs lines 198-210): force
every descendant of `index` to the state of `index`, stopping when a child
index would fall outside the `sz`-cell array.  The second child write
re-reads `self.tree[index]` after the first recursive call, as the source
does.  Child indices at least double per step, so fuel `sz` is always
sufficient. -/
def ucGo (sz : Nat) (fuel : Nat) (t : Nat → Node) (index : Nat) : Nat → Node :=
  match fuel with
  | 0 => t
  | fuel + 1 =>
    if 2 * index + 1 > sz - 1 ∨ 2 * index + 2 > sz - 1 then t
    else
      let t1 := treeSet t (2 * index + 1) (t index)
      let t2 := ucGo sz fuel t1 (2 * index + 1)
      let t3 := treeSet t2 (2 * index + 2) (t2 index)
      ucGo sz fuel t3 (2 * index + 2)

/-- `Buddy::update_children`, with always-sufficient fuel. -/
def updateChildren (sz : Nat) (t : Nat → Node) (index : Nat) : Nat → Node :=
  ucGo sz sz t index

/-- The `while find_msb_bit > 0` loop of `Buddy::log_base_2`
(buddy.rs lines 213-222), fueled (`find` halves per step, so any
`fuel ≥ find` suffices). -/
def logLoop (fuel find exp : Nat) : Nat :=
  match fuel with
  | 0 => exp
  | fuel + 1 =>
    if find = 0 then exp
    else logLoop fuel (find / 2) (exp + 1)

/-- `Buddy::log_base_2`: position of the most significant bit. -/
def logBase2 (x : Nat) : Nat := logLoop x (x / 2) 0

/-- Fueled `usize::next_power_of_two`: the smallest power of two that is
`≥ n` (and `1` for `n ≤ 1`).  The argument at least halves per step, so
`fuel = n` suffices. -/
def np2Go (fuel n : Nat) : Nat :=
  match fuel with
  | 0 => 1
  | fuel + 1 =>
    if n ≤ 1 then 1
    else 2 * np2Go fuel ((n + 1) / 2)

/-- `usize::next_power_of_two`. -/
def nextPow2 (n : Nat) : Nat := np2Go n n

/-- `Buddy::get_level_from_num_frames` (buddy.rs lines 161-171). -/
def getLevelFromNumFrames (numFrames : Nat) : Nat :=
  let requestedFrames := if numFrames = 0 then 1 else nextPow2 numFrames
  logBase2 requestedFrames

/-- Fueled body of the `'backward` loop of `Buddy::allocate` (buddy.rs
lines 82-94): ascend until reaching a left child (odd index), then step to
its right buddy; give up (`return -1`) upon reaching the root.  The index
strictly decreases, so any `fuel > index` suffices. -/
def btGo (fuel : Nat) (index curLevel : Nat) : Option (Nat × Nat) :=
  match fuel with
  | 0 => none
  | fuel + 1 =>
    if index = 0 then none
    else
      let p := (index + 1) / 2 - 1
      let l := curLevel + 1
      if p % 2 = 1 then some (p + 1, l)
      else btGo fuel p l

/-- The `'backward` loop, with always-sufficient fuel `index + 1`. -/
def backtrack (index curLevel : Nat) : Option (Nat × Nat) :=
  btGo (index + 1) index curLevel

/-- Result of running `Buddy::allocate`: a panic (usize underflow /
out-of-bounds index in the Rust source), loop-fuel exhaustion of the
embedding, or the returned `isize` together with the mutated tree. -/
inductive BRes where
  | panicked
  | fuelOut
  | ok (b : Buddy) (res : Int)

/-- Frame-number computation at the end of `Buddy::allocate` (buddy.rs
lines 97-102): `level_offset * 1 << current_level` parses as
`(level_offset * 1) << current_level`. -/
def frameNumberOf (levels index curLevel : Nat) : Nat :=
  let currentLevelOffset := 2 ^ (levels - curLevel) - 1
  let levelOffset := index - currentLevelOffset
  levelOffset * 2 ^ curLevel

/-- The `'forward` loop of `Buddy::allocate` (buddy.rs lines 40-95), with
explicit fuel.  At a level match on an `Unused` cell the source runs
`update_parents((index + 1) / 2 - 1)`, which underflows usize (and then
indexes out of bounds) when `index = 0`; that path is modelled as
`BRes.panicked`. -/
def allocLoop (levels rl : Nat) (fuel : Nat) (t : Nat → Node)
    (index curLevel : Nat) : BRes :=
  match fuel with
  | 0 => BRes.fuelOut
  | fuel + 1 =>
    let hasBuddy := index % 2 = 1
    let commonTail : Unit → BRes := fun _ =>
      if hasBuddy then allocLoop levels rl fuel t (index + 1) curLevel
      else
        match backtrack index curLevel with
        | none => BRes.ok ⟨levels, t⟩ (-1)
        | some (i, l) => allocLoop levels rl fuel t i l
    if curLevel ≠ rl then
      match t index with
      | Node.Used | Node.Full => commonTail ()
      | Node.Unused =>
          allocLoop levels rl fuel (treeSet t index Node.Split)
            (2 * index + 1) (curLevel - 1)
      | Node.Split =>
          allocLoop levels rl fuel t (2 * index + 1) (curLevel - 1)
    else
      if t index = Node.Unused then
        if index = 0 then BRes.panicked
        else
          let t1 := treeSet t index Node.Used
          let t2 := updateParents t1 ((index + 1) / 2 - 1)
          let t3 := updateChildren (buddySize levels) t2 index
          BRes.ok ⟨levels, t3⟩ (Int.ofNat (frameNumberOf levels index curLevel))
      else commonTail ()

/-- `Buddy::allocate` (buddy.rs lines 30-103). -/
def buddyAllocate (fuel : Nat) (b : Buddy) (numFrames : Nat) : BRes :=
  let rl := getLevelFromNumFrames numFrames
  if rl > b.levels then BRes.ok b (-1)
  else allocLoop b.levels rl fuel b.tree 0 b.levels

/-- Loop body of `Buddy::mark_used` (buddy.rs lines 109-117): pin leaf
`index_offset + n` to `Used`; when that index is even (no right buddy) run
`update_parents((index_offset + 1) / 2 - 1)` — note the source uses
`index_offset`, not `index_offset + n`, in that argument.  Writing past the
end of the array is a Rust panic, modelled as `none`; so is the usize
underflow of the parent argument when `index_offset = 0`. -/
def muGo (sz indexOffset : Nat) (t : Nat → Node) (n cnt : Nat) :
    Option (Nat → Node) :=
  match cnt with
  | 0 => some t
  | cnt + 1 =>
    if indexOffset + n > sz - 1 then none
    else
      let t1 := treeSet t (indexOffset + n) Node.Used
      if (indexOffset + n) % 2 = 1 then muGo sz indexOffset t1 (n + 1) cnt
      else
        if indexOffset = 0 then none
        else muGo sz indexOffset (updateParents t1 ((indexOffset + 1) / 2 - 1))
          (n + 1) cnt

/-- `Buddy::mark_used` (buddy.rs lines 106-120). -/
def markUsed (b : Buddy) (numFrames frameNumber : Nat) : Option Buddy :=
  let lastLevelOffset := 2 ^ b.levels - 1
  let indexOffset := lastLevelOffset + frameNumber
  (muGo (buddySize b.levels) indexOffset b.tree 0 numFrames).map
    (fun t => ⟨b.levels, t⟩)

/-- Fueled body of `Buddy::free_and_combine` (buddy.rs lines 141-159): set
the cell `Unused`, and while the buddy sibling is also `Unused` recurse on
the parent.  The index strictly decreases, so any `fuel > index`
suffices. -/
def fcGo (fuel : Nat) (t : Nat → Node) (index : Nat) : Nat → Node :=
  match fuel with
  | 0 => t
  | fuel + 1 =>
    let t1 := treeSet t index Node.Unused
    if index = 0 then t1
    else
      let otherNode := if index % 2 = 1 then index + 1 else index - 1
      if t1 otherNode = Node.Unused then fcGo fuel t1 ((index + 1) / 2 - 1)
      else t1

/-- `Buddy::free_and_combine`, with always-sufficient fuel `index + 1`. -/
def freeAndCombine (t : Nat → Node) (index : Nat) : Nat → Node :=
  fcGo (index + 1) t index

/-- `Buddy::free` (buddy.rs lines 123-139).  Panics (modelled as `none`)
on: a requested level above `levels` (usize underflow in
`self.levels - requested_level`), an out-of-range derived index (the
explicit `panic!`), and the underflow of `(index_offset + 1) / 2 - 1` when
the derived index is the root. -/
def buddyFree (b : Buddy) (numFrames frameNumber : Nat) : Option Buddy :=
  let rl := getLevelFromNumFrames numFrames
  if rl > b.levels then none
  else
    let levelOffset := frameNumber / 2 ^ rl
    let requestedLevelOffset := 2 ^ (b.levels - rl) - 1
    let indexOffset := requestedLevelOffset + levelOffset
    if indexOffset > buddySize b.levels - 1 then none
    else
      let t1 := freeAndCombine b.tree indexOffset
      if indexOffset = 0 then none
      else
        let t2 := updateParents t1 ((indexOffset + 1) / 2 - 1)
        some ⟨b.levels, updateChildren (buddySize b.levels) t2 indexOffset⟩

/-- `Buddy::new()` with the page-level constant `LEVELS = 10`. -/
def emptyBuddy : Buddy := ⟨10, fun _ => Node.Unused⟩

/-- Offset returned by an allocation result, if it completed. -/
def allocOffset (r : BRes) : Option Int :=
  match r with
  | BRes.ok _ res => some res
  | _ => none

/-- Tree resulting from an allocation, with a dummy on the non-`ok` paths. -/
def buddyOfRes (r : BRes) : Buddy :=
  match r with
  | BRes.ok b _ => b
  | _ => ⟨0, fun _ => Node.Unused⟩

/-- Whether an allocation run hit the modelled Rust panic. -/
def isPanicRes (r : BRes) : Bool :=
  match r with
  | BRes.panicked => true
  | _ => false

/-- Unwrap an optional buddy, with a dummy for the panic path. -/
def buddyOfO (o : Option Buddy) : Buddy :=
  o.getD ⟨0, fun _ => Node.Unused⟩

/-- Frames of physical memory, from `struct Frame` in src/memory/mod.rs:
a run of `num_pages` physical page frames starting at frame index
`number`. -/
structure Frame where
  number : Nat
  num_pages : Nat
deriving DecidableEq, Repr

/-- The fixed page size of src/memory/mod.rs. -/
def PAGE_SIZE : Nat := 4096

/-- `Frame::start_address()`. -/
def frameStart (f : Frame) : Nat := f.number * PAGE_SIZE

/-- Virtual page from `struct Page` in src/memory/paging/mod.rs. -/
structure Page where
  number : Nat
deriving DecidableEq, Repr

/-- `Page::start_address()`. -/
def pageStart (p : Page) : Nat := p.number * PAGE_SIZE

/-- `Page::p4_index()`: `(self.number >> 27) & 0o777`. -/
def p4Index (p : Page) : Nat := (p.number >>> 27) &&& 511

/-- `Page::p3_index()`: `(self.number >> 18) & 0o777`. -/
def p3Index (p : Page) : Nat := (p.number >>> 18) &&& 511

/-- `Page::p2_index()`: `(self.number >> 9) & 0o777`. -/
def p2Index (p : Page) : Nat := (p.number >>> 9) &&& 511

/-- `Page::p1_index()`: `(self.number >> 0) & 0o777`. -/
def p1Index (p : Page) : Nat := p.number &&& 511

/-- Physical-address field mask of a page-table entry (entry.rs line 4). -/
def FLAG_MASK : Nat := 0x000FFFFFFFFFF000

/-- Bitwise complement of `FLAG_MASK` within a u64, used by the alignment
assertion of `Entry::set`. -/
def NOT_FLAG_MASK : Nat := 0xFFF0000000000FFF

/-- `EntryFlags::PRESENT`. -/
def PRESENT : Nat := 1

/-- `EntryFlags::WRITABLE`. -/
def WRITABLE : Nat := 2

/-- `EntryFlags::HUGE_PAGE`. -/
def HUGE_PAGE : Nat := 128

/-- Whether the PRESENT flag (bit 0) is set in a raw entry word. -/
def entryPresent (e : Nat) : Bool := e.testBit 0

/-- Whether the HUGE_PAGE flag (bit 7) is set in a raw entry word. -/
def entryHuge (e : Nat) : Bool := e.testBit 7

/-- `Entry::frame_pointer()` (entry.rs lines 38-49), exactly as written in
the source: when PRESENT is set it returns a one-page `Frame` whose
`number` field is the raw word masked with `FLAG_MASK` — the source does
not divide the masked physical address by the page size. -/
def framePointer (e : Nat) : Option Frame :=
  if entryPresent e then some ⟨e &&& FLAG_MASK, 1⟩ else none

/-- Machine state of the paging subsystem: physical memory as a total map
from physical frame number to a 512-entry table of raw 64-bit entry words,
plus the physical frame number of the active P4 (the value `cr3 / 4096`).
The Mapper's `P4` pointer (the recursive-mapping virtual address) denotes
the table in the frame `p4frame`. -/
structure PTState where
  mem : Nat → Nat → Nat
  p4frame : Nat

/-- Store a raw word into one entry of one physical table. -/
def writeEntry (st : PTState) (pf idx val : Nat) : PTState :=
  ⟨fun pf2 =>
      if pf2 = pf then fun i => if i = idx then val else st.mem pf i
      else st.mem pf2,
    st.p4frame⟩

/-- `Table::zero()`: zero all entries of the table in frame `pf`. -/
def zeroTable (st : PTState) (pf : Nat) : PTState :=
  ⟨fun pf2 => if pf2 = pf then fun _ => 0 else st.mem pf2, st.p4frame⟩

/-- `Table::next_table_address` / `next_table` (table.rs lines 52-92),
hardware-resolved: the code forms the recursive-mapping virtual address
`(table_address << 9) | (index << 12)` when the entry is PRESENT and not
HUGE_PAGE; the MMU resolves that address to the physical frame held in
bits 12-51 of the entry, i.e. `(entry & FLAG_MASK) / 4096`. -/
def nextTableFrame (e : Nat) : Option Nat :=
  if entryPresent e && !entryHuge e then some ((e &&& FLAG_MASK) / PAGE_SIZE)
  else none

/-- `Table::next_table_or_create` (table.rs lines 64-78).  When the entry
does not lead to a table: panics (`none`) if the entry has HUGE_PAGE set
(the huge-page assertion) or the allocator is exhausted (`expect`); else
takes a frame from the allocator, writes it with PRESENT|WRITABLE (the
`Entry::set` alignment assertion may panic), and zeroes the new table. -/
def nextTableOrCreate (st : PTState) (tableFrame idx : Nat)
    (alloc : List Frame) : Option (Nat × PTState × List Frame) :=
  let e := st.mem tableFrame idx
  match nextTableFrame e with
  | some tf => some (tf, st, alloc)
  | none =>
    if entryHuge e then none
    else
      match alloc with
      | [] => none
      | f :: rest =>
        if frameStart f &&& NOT_FLAG_MASK ≠ 0 then none
        else
          let st1 := writeEntry st tableFrame idx
            (frameStart f ||| (PRESENT ||| WRITABLE))
          some (f.number, zeroTable st1 f.number, rest)

/-- `Mapper::map_to` (mapper.rs lines 40-55): walk-or-create P3, P2, P1;
panic (`none`) if the terminal P1 entry is not unused (the assertion); else
set it to the frame with `flags | PRESENT` (`Entry::set`, whose alignment
assertion may also panic). -/
def mapTo (st : PTState) (page : Page) (frame : Frame) (flags : Nat)
    (alloc : List Frame) : Option PTState :=
  match nextTableOrCreate st st.p4frame (p4Index page) alloc with
  | none => none
  | some (p3f, st3, a3) =>
    match nextTableOrCreate st3 p3f (p3Index page) a3 with
    | none => none
    | some (p2f, st2, a2) =>
      match nextTableOrCreate st2 p2f (p2Index page) a2 with
      | none => none
      | some (p1f, st1, _) =>
        if st1.mem p1f (p1Index page) ≠ 0 then none
        else if frameStart frame &&& NOT_FLAG_MASK ≠ 0 then none
        else some (writeEntry st1 p1f (p1Index page)
          (frameStart frame ||| (flags ||| PRESENT)))

/-- `Mapper::translate_page` (mapper.rs lines 85-96): walk P4→P3→P2 with
`next_table` and project the terminal P1 entry through
`Entry::frame_pointer` (the `huge_page` closure is `|| None`). -/
def translatePage (st : PTState) (page : Page) : Option Frame :=
  match nextTableFrame (st.mem st.p4frame (p4Index page)) with
  | none => none
  | some p3f =>
    match nextTableFrame (st.mem p3f (p3Index page)) with
    | none => none
    | some p2f =>
      match nextTableFrame (st.mem p2f (p2Index page)) with
      | none => none
      | some p1f => framePointer (st.mem p1f (p1Index page))

/-- `Mapper::translate` (mapper.rs lines 18-22).  `Page::from_address`
asserts the canonical-form constraint (paging/mod.rs lines 54-56); that
panic is the outer `none`.  On success the result is
`frame.number * PAGE_SIZE + offset` for the frame of `translate_page`. -/
def mapperTranslate (st : PTState) (address : Nat) : Option (Option Nat) :=
  if address < 0x0000800000000000 ∨ 0xffff800000000000 ≤ address then
    some ((translatePage st ⟨address / PAGE_SIZE⟩).map
      (fun f => f.number * PAGE_SIZE + address % PAGE_SIZE))
  else none

/-- `Mapper::unmap` (mapper.rs lines 57-75): walk with `next_table_mut`
(the `expect` panic is `none`), then — exactly as the source is written —
clear the entry of the P1 table selected by `page.p2_index()`, and flush
the single TLB entry for `page.start_address()` (the flushed virtual
address is returned alongside the state). -/
def unmap (st : PTState) (page : Page) : Option (PTState × Nat) :=
  match nextTableFrame (st.mem st.p4frame (p4Index page)) with
  | none => none
  | some p3f =>
    match nextTableFrame (st.mem p3f (p3Index page)) with
    | none => none
    | some p2f =>
      match nextTableFrame (st.mem p2f (p2Index page)) with
      | none => none
      | some p1f => some (writeEntry st p1f (p2Index page) 0, pageStart page)

/-- Unwrap an optional paging state, with a dummy for the panic path. -/
def ptOfO (o : Option PTState) : PTState := o.getD ⟨fun _ _ => 0, 0⟩

/-- `ActivePageTable::with` (paging/mod.rs lines 110-129).  Reads CR3 into
`backup = Frame::from_address(cr3, 1)`; maps the temporary page to the
backup frame through the active mapper (`TemporaryPage::map` asserts the
scratch page is unmapped, then runs `map_to` with WRITABLE using the
three-frame stash, modelled as a frame list); overwrites the active
P4[511] with the inactive frame and PRESENT|WRITABLE (`Entry::set`
alignment assertion); flushes the whole TLB once; runs the closure `f` —
and returns.  The source performs no restoration of P4[511] and no second
flush after `f`; the returned number counts the full-TLB flushes
performed. -/
def withActive (st : PTState) (tempPage : Page) (stash : List Frame)
    (inactiveFrame : Frame) (f : PTState → PTState) : Option (PTState × Nat) :=
  let backup : Frame := ⟨st.p4frame, 1⟩
  if translatePage st tempPage ≠ none then none
  else
    match mapTo st tempPage backup WRITABLE stash with
    | none => none
    | some st1 =>
      if frameStart inactiveFrame &&& NOT_FLAG_MASK ≠ 0 then none
      else
        let st2 := writeEntry st1 st1.p4frame 511
          (frameStart inactiveFrame ||| (PRESENT ||| WRITABLE))
        some (f st2, 1)

/-- Three-slot frame stash from `struct TinyAllocator` in
src/memory/paging/temporary_page.rs. -/
structure TinyAllocator where
  s0 : Option Frame
  s1 : Option Frame
  s2 : Option Frame
deriving DecidableEq, Repr

/-- `TinyAllocator::allocate` (temporary_page.rs lines 14-22): scan the
three slots in order and `take` the first stashed frame; the `num_pages`
argument is never read.  When every slot is empty the loop falls through
(the function's `Option<Frame>` type makes that the absent value). -/
def tinyAllocate (t : TinyAllocator) (numPages : Nat) :
    Option Frame × TinyAllocator :=
  match t with
  | ⟨some f, b, c⟩ => (some f, ⟨none, b, c⟩)
  | ⟨none, some f, c⟩ => (some f, ⟨none, none, c⟩)
  | ⟨none, none, some f⟩ => (some f, ⟨none, none, none⟩)
  | ⟨none, none, none⟩ => (none, ⟨none, none, none⟩)

/-- `TinyAllocator::deallocate` (temporary_page.rs lines 24-31): store the
frame into the first empty slot; when no slot is empty the loop ends and
the frame is dropped. -/
def tinyDeallocate (t : TinyAllocator) (f : Frame) : TinyAllocator :=
  match t with
  | ⟨none, b, c⟩ => ⟨some f, b, c⟩
  | ⟨a, none, c⟩ => ⟨a, some f, c⟩
  | ⟨a, b, none⟩ => ⟨a, b, some f⟩
  | t => t

/-- Frame-allocator facade from `struct Allocator` in src/memory/alloc.rs
(the `end` field is renamed `end_`, `end` being reserved in Lean). -/
structure Allocator where
  buddy : Buddy
  start : Nat
  end_ : Nat

/-- `FrameAllocator::allocate` for `Allocator` (alloc.rs lines 32-44), with
release-mode wrapping usize arithmetic.  The buddy's `isize` result is cast
`as usize` (two's complement, i.e. reduced mod 2^64) before any test, so
the source's `page_offset >= 0` comparison is performed on a usize and is
always true (it is kept verbatim); `(page_offset + num_pages) * PAGE_SIZE`
wraps mod 2^64.  The outer `none` is the panic path of the buddy call. -/
def allocatorAllocate (fuel : Nat) (a : Allocator) (numPages : Nat) :
    Option (Option Frame × Allocator) :=
  match buddyAllocate fuel a.buddy numPages with
  | BRes.ok b res =>
    let pageOffset := (res.emod (2 ^ 64)).toNat
    let endW := ((pageOffset + numPages) * PAGE_SIZE) % 2 ^ 64
    if 0 ≤ pageOffset ∧ endW < a.end_ then
      some (some ⟨pageOffset, numPages⟩, ⟨b, a.start, a.end_⟩)
    else some (none, ⟨b, a.start, a.end_⟩)
  | _ => none

/-- Shared concrete fixture: all physical memory zeroed, active P4 in
physical frame 100. -/
def zeroState : PTState := ⟨fun _ _ => 0, 100⟩

/-- Shared concrete fixture: three fresh one-page frames for the
intermediate-table allocations of a `map_to` walk. -/
def threeFrames : List Frame := [⟨101, 1⟩, ⟨102, 1⟩, ⟨103, 1⟩]

/-- Shared concrete fixture: active P4 in frame 100 with its recursive
entry P4[511] pointing back at frame 100, a present-and-writable chain of
tables 100[0] → 101, 101[0] → 102, 102[0] → 103, and every other entry
zero. -/
def chainState : PTState :=
  ⟨fun pf i =>
    if pf = 100 ∧ i = 0 then 101 * 4096 ||| 3
    else if pf = 100 ∧ i = 511 then 100 * 4096 ||| 3
    else if pf = 101 ∧ i = 0 then 102 * 4096 ||| 3
    else if pf = 102 ∧ i = 0 then 103 * 4096 ||| 3
    else 0, 100⟩

/-- Fueled ancestor path of a cell: the cell, then the path of its parent
`(i + 1) / 2 - 1`, ending at the root.  The index strictly decreases, so
fuel `i + 1` suffices. -/
def pathGo (fuel i : Nat) : List Nat :=
  match fuel with
  | 0 => []
  | fuel + 1 => i :: (if i = 0 then [] else pathGo fuel ((i + 1) / 2 - 1))

/-- Ancestor path from a cell to the root, with always-sufficient fuel. -/
def pathToRoot (i : Nat) : List Nat := pathGo (i + 1) i

theorem pathGo_congr (f : Nat) : ∀ (g i : Nat), i < f → i < g →
    pathGo f i = pathGo g i := by
  induction f with
  | zero => intro g i h; omega
  | succ f ih =>
    intro g i hf hg
    match g, hg with
    | g + 1, _ =>
      simp only [pathGo]
      by_cases h0 : i = 0
      · simp [h0]
      · simp only [h0, if_false]
        have hlt : (i + 1) / 2 - 1 < i := by omega
        have : (i + 1) / 2 - 1 < f := by omega
        have : (i + 1) / 2 - 1 < g := by omega
        rw [ih g ((i + 1) / 2 - 1) (by omega) (by omega)]

theorem upGo_gt (fuel : Nat) : ∀ (t : Nat → Node) (index j : Nat),
    index < j → upGo fuel t index j = t j := by
  induction fuel with
  | zero => intro t index j _; rfl
  | succ fuel ih =>
    intro t index j hij
    simp only [upGo]
    by_cases h0 : index = 0
    · simp only [h0, if_true, treeSet]
      have : j ≠ 0 := by omega
      simp [this]
    · simp only [h0, if_false]
      rw [ih _ _ _ (by omega)]
      simp only [treeSet]
      have : j ≠ index := by omega
      simp [this]

theorem upGo_path_rule (fuel : Nat) : ∀ (t : Nat → Node) (index : Nat),
    index < fuel → ∀ j, j ∈ pathToRoot index →
    upGo fuel t index j =
      nodeRule (upGo fuel t index (2 * j + 1)) (upGo fuel t index (2 * j + 2)) := by
  induction fuel with
  | zero => intro t index h; omega
  | succ fuel ih =>
    intro t index hlt j hj
    by_cases h0 : index = 0
    · subst h0
      have hj0 : j = 0 := by
        simpa [pathToRoot, pathGo] using hj
      subst hj0
      simp [upGo, treeSet]
    · have hstep : upGo (fuel + 1) t index =
          upGo fuel (treeSet t index
            (nodeRule (t (2 * index + 1)) (t (2 * index + 2))))
            ((index + 1) / 2 - 1) := by
        simp [upGo, h0]
      have hparent : (index + 1) / 2 - 1 < index := by omega
      have hpf : (index + 1) / 2 - 1 < fuel := by omega
      have hpath : pathToRoot index = index :: pathGo index ((index + 1) / 2 - 1) := by
        simp only [pathToRoot, pathGo, h0, if_false]
      have hconv : pathGo index ((index + 1) / 2 - 1) =
          pathToRoot ((index + 1) / 2 - 1) :=
        pathGo_congr index ((index + 1) / 2 - 1 + 1) ((index + 1) / 2 - 1)
          (by omega) (by omega)
      rw [hpath, hconv] at hj
      rcases List.mem_cons.mp hj with heq | hj
      · rw [heq, hstep]
        rw [upGo_gt fuel _ _ _ hparent]
        rw [upGo_gt fuel _ _ _ (by omega)]
        rw [upGo_gt fuel _ _ _ (by omega)]
        simp only [treeSet]
        have h1 : 2 * index + 1 ≠ index := by omega
        have h2 : 2 * index + 2 ≠ index := by omega
        simp [h1, h2]
      · rw [hstep]
        exact ih _ _ hpf j hj

theorem mapTo_walk (st : PTState) (page : Page) (frame : Frame)
    (flags : Nat) (alloc : List Frame) (p3f p2f p1f : Nat)
    (h4 : nextTableFrame (st.mem st.p4frame (p4Index page)) = some p3f)
    (h3 : nextTableFrame (st.mem p3f (p3Index page)) = some p2f)
    (h2 : nextTableFrame (st.mem p2f (p2Index page)) = some p1f)
    (halign : frameStart frame &&& NOT_FLAG_MASK = 0) :
    mapTo st page frame flags alloc =
      if st.mem p1f (p1Index page) ≠ 0 then none
      else some (writeEntry st p1f (p1Index page)
        (frameStart frame ||| (flags ||| PRESENT))) := by
  simp only [mapTo, nextTableOrCreate, h4, h3, h2, halign]
  simp

/-- C9: mapping a page whose terminal P1 entry is already non-zero hits the
contract-violation fatal path of `map_to` (the `is_unused` assertion,
modelled as `none`); when the entry is unused, `map_to` writes the frame's
start address with the given flags plus PRESENT forced on.  Hypotheses: the
three intermediate tables exist (present, not huge) and the frame address
passes the alignment assertion of `Entry::set`. -/
theorem c9_map_to_assert_and_set (st : PTState) (page : Page) (frame : Frame)
    (flags : Nat) (alloc : List Frame) (p3f p2f p1f : Nat)
    (h4 : nextTableFrame (st.mem st.p4frame (p4Index page)) = some p3f)
    (h3 : nextTableFrame (st.mem p3f (p3Index page)) = some p2f)
    (h2 : nextTableFrame (st.mem p2f (p2Index page)) = some p1f)
    (halign : frameStart frame &&& NOT_FLAG_MASK = 0) :
    (st.mem p1f (p1Index page) ≠ 0 → mapTo st page frame flags alloc = none) ∧
    (st.mem p1f (p1Index page) = 0 → mapTo st page frame flags alloc =
      some (writeEntry st p1f (p1Index page)
        (frameStart frame ||| (flags ||| PRESENT)))) := by
  rw [mapTo_walk st page frame flags alloc p3f p2f p1f h4 h3 h2 halign]
  constructor
  · intro h; simp [h]
  · intro h; simp [h]

/-- Witness for C9 at a concrete state: tables 100 → 101 → 102 → 103 all
present, the terminal entry of page 0 unused; `map_to` installs
`frame 5 | WRITABLE | PRESENT`. -/
theorem c9_map_to_assert_and_set_witness :
    nextTableFrame (chainState.mem chainState.p4frame (p4Index ⟨0⟩)) = some 101 ∧
    nextTableFrame (chainState.mem 101 (p3Index ⟨0⟩)) = some 102 ∧
    nextTableFrame (chainState.mem 102 (p2Index ⟨0⟩)) = some 103 ∧
    frameStart ⟨5, 1⟩ &&& NOT_FLAG_MASK = 0 ∧
    chainState.mem 103 (p1Index ⟨0⟩) = 0 ∧
    mapTo chainState ⟨0⟩ ⟨5, 1⟩ 2 [] =
      some (writeEntry chainState 103 (p1Index ⟨0⟩)
        (frameStart ⟨5, 1⟩ ||| (2 ||| PRESENT))) :=
  ⟨by decide, by decide, by decide, by decide, by decide,
    (c9_map_to_assert_and_set chainState ⟨0⟩ ⟨5, 1⟩ 2 [] 101 102 103
      (by decide) (by decide) (by decide) (by decide)).2 (by decide)⟩

/-- C1 fails on the code: after `map_to(page 0x40000000/4096, frame 5,
WRITABLE)` on zeroed memory (intermediate tables created from three fresh
frames), `translate(page.start_address() + 0x123)` returns
`(5*4096) * 4096 + 0x123 = 83886371` instead of the claimed
`frame.start_address() + 0x123 = 20771`: `Entry::frame_pointer` stores the
masked physical address in `Frame.number` without dividing by the page
size, and `translate` multiplies it by the page size again. -/
theorem c1_translate_after_map_to_code_bug :
    (mapTo zeroState ⟨262144⟩ ⟨5, 1⟩ WRITABLE threeFrames).isSome = true ∧
    mapperTranslate (ptOfO (mapTo zeroState ⟨262144⟩ ⟨5, 1⟩ WRITABLE threeFrames))
      (pageStart ⟨262144⟩ + 291) = some (some 83886371) ∧
    frameStart ⟨5, 1⟩ + 291 = 20771 ∧
    (83886371 : Nat) ≠ 20771 := by
  refine ⟨by decide, by decide, by decide, by decide⟩

/-- C2 fails on the code: on a fresh buddy (LEVELS = 10),
`mark_used(4, 0)` reserves frames 0..3 (leaves 1023..1026), but its
parent propagation only ever runs on the ancestors of the first leaf, so
node 512 (covering frames 2..3) stays `Unused`; the very next
`allocate(2)` then returns offset 2, inside the reserved region
`[0, 4)`. -/
theorem c2_mark_used_reserved_overlap_code_bug :
    (markUsed emptyBuddy 4 0).isSome = true ∧
    (buddyOfO (markUsed emptyBuddy 4 0)).tree 1025 = Node.Used ∧
    (buddyOfO (markUsed emptyBuddy 4 0)).tree 1026 = Node.Used ∧
    (buddyOfO (markUsed emptyBuddy 4 0)).tree 512 = Node.Unused ∧
    allocOffset (buddyAllocate 20 (buddyOfO (markUsed emptyBuddy 4 0)) 2) =
      some 2 ∧
    ((0 : Int) ≤ 2 ∧ (2 : Int) < 0 + 4) := by
  refine ⟨by decide, by decide, by decide, by decide, by decide, by decide⟩

/-- C3 fails on the code, twice over.  (a) After the boot-path state
`mark_used(4, 0)`, `allocate(2)` succeeds with offset 2, but the following
`free(2, 2)` does not restore the tree: `update_children` resets leaves
1025/1026 (frames 2..3, reserved before the allocation) from `Used` to
`Unused`.  (b) For `n = 2^LEVELS = 1024` on the empty tree, `allocate`
never succeeds at all: the match happens at index 0 and
`update_parents((0 + 1) / 2 - 1)` underflows usize, a Rust panic. -/
theorem c3_allocate_free_roundtrip_code_bug :
    (markUsed emptyBuddy 4 0).isSome = true ∧
    allocOffset (buddyAllocate 20 (buddyOfO (markUsed emptyBuddy 4 0)) 2) =
      some 2 ∧
    (buddyFree (buddyOfRes (buddyAllocate 20 (buddyOfO (markUsed emptyBuddy 4 0)) 2))
      2 2).isSome = true ∧
    (buddyOfO (markUsed emptyBuddy 4 0)).tree 1025 = Node.Used ∧
    (buddyOfO (buddyFree
      (buddyOfRes (buddyAllocate 20 (buddyOfO (markUsed emptyBuddy 4 0)) 2))
      2 2)).tree 1025 = Node.Unused ∧
    Node.Used ≠ Node.Unused ∧
    isPanicRes (buddyAllocate 20 emptyBuddy 1024) = true := by
  refine ⟨by decide, by decide, by decide, by decide, by decide, by decide,
    by decide⟩

/-- C4 fails on the code: after mapping page 1 (p1 index 1, p2 index 0)
and calling `unmap`, the single-page TLB flush for `page.start_address()`
does happen, but the write clears `p1[page.p2_index()]` — entry 0, not the
terminal entry 1 — so `translate(page.start_address())` still returns a
value instead of none. -/
theorem c4_unmap_translate_code_bug :
    p1Index ⟨1⟩ = 1 ∧ p2Index ⟨1⟩ = 0 ∧
    (mapTo zeroState ⟨1⟩ ⟨7, 1⟩ WRITABLE threeFrames).isSome = true ∧
    (unmap (ptOfO (mapTo zeroState ⟨1⟩ ⟨7, 1⟩ WRITABLE threeFrames)) ⟨1⟩).map
      Prod.snd = some (pageStart ⟨1⟩) ∧
    (unmap (ptOfO (mapTo zeroState ⟨1⟩ ⟨7, 1⟩ WRITABLE threeFrames)) ⟨1⟩).map
      (fun r => mapperTranslate r.1 (pageStart ⟨1⟩)) =
      some (some (some 117440512)) ∧
    (some (117440512 : Nat)) ≠ (none : Option Nat) := by
  refine ⟨by decide, by decide, by decide, by decide, by decide, by decide⟩

/-- C5 fails on the code: for the raw entry word 4097 (PRESENT set,
address bits 0x1000), `frame_pointer()` returns a frame with
`number = 4096 = raw & FLAG_MASK`, not the claimed
`(raw & FLAG_MASK) / 4096 = 1`; it does return none when PRESENT is
clear. -/
theorem c5_frame_pointer_code_bug :
    framePointer 4097 = some ⟨4096, 1⟩ ∧
    (4097 &&& FLAG_MASK) / PAGE_SIZE = 1 ∧
    (⟨4096, 1⟩ : Frame) ≠ ⟨1, 1⟩ ∧
    framePointer 4096 = none := by
  refine ⟨by decide, by decide, by decide, by decide⟩

/-- C6 fails on the code: with the buddy exhausted (root `Full`),
`buddy.allocate(1)` returns the sentinel -1, yet the facade's `allocate`
returns `Some Frame` with `number = 2^64 - 1`: the sentinel is cast
`as usize` before the `page_offset >= 0` test (which is therefore always
true), and `(page_offset + num_pages) * PAGE_SIZE` wraps to 0, passing the
`end` check. -/
theorem c6_allocator_sentinel_code_bug :
    allocOffset (buddyAllocate 20
      (⟨10, fun i => if i = 0 then Node.Full else Node.Unused⟩ : Buddy) 1) =
      some (-1) ∧
    (allocatorAllocate 20
      ⟨⟨10, fun i => if i = 0 then Node.Full else Node.Unused⟩, 0, 1000000⟩
      1).map Prod.fst = some (some ⟨18446744073709551615, 1⟩) ∧
    (some (⟨18446744073709551615, 1⟩ : Frame)) ≠ (none : Option Frame) := by
  refine ⟨by decide, by decide, by decide⟩

/-- C7 as stated is false on the code: already after `allocate(2)` on the
empty tree (a public buddy operation), the matched internal node 511 is
`Used` while both of its children (leaves 1023, 1024, forced by
`update_children`) are `Used`; the claimed rule demands `Full` there. -/
theorem c7_invariant_counterexample :
    allocOffset (buddyAllocate 20 emptyBuddy 2) = some 0 ∧
    (buddyOfRes (buddyAllocate 20 emptyBuddy 2)).tree 1023 = Node.Used ∧
    (buddyOfRes (buddyAllocate 20 emptyBuddy 2)).tree 1024 = Node.Used ∧
    (buddyOfRes (buddyAllocate 20 emptyBuddy 2)).tree 511 = Node.Used ∧
    nodeRule ((buddyOfRes (buddyAllocate 20 emptyBuddy 2)).tree 1023)
        ((buddyOfRes (buddyAllocate 20 emptyBuddy 2)).tree 1024) = Node.Full ∧
    (buddyOfRes (buddyAllocate 20 emptyBuddy 2)).tree 511 ≠
      nodeRule ((buddyOfRes (buddyAllocate 20 emptyBuddy 2)).tree 1023)
        ((buddyOfRes (buddyAllocate 20 emptyBuddy 2)).tree 1024) := by
  refine ⟨by decide, by decide, by decide, by decide, by decide, by decide⟩

/-- C7 amended: the child rule (`Full` iff both children Used-or-Full,
`Unused` iff both children Unused, otherwise `Split`) holds after
`update_parents(i)` for every node on the recomputation path from `i` to
the root — this is the propagation step that `allocate`, `free` and
`mark_used` invoke; it does not extend to the `Used` node itself, to the
subtree that `update_children` forces to `Used`, or to the ancestors of
leaves that `mark_used` never propagates. -/
theorem c7_update_parents_path_rule (t : Nat → Node) (index j : Nat)
    (hj : j ∈ pathToRoot index) :
    updateParents t index j =
      nodeRule (updateParents t index (2 * j + 1))
        (updateParents t index (2 * j + 2)) :=
  upGo_path_rule (index + 1) t index (Nat.lt_succ_self index) j hj

/-- Witness for the amended C7: node 2 lies on the path from 5 to the root
and satisfies the child rule after `update_parents(5)`. -/
theorem c7_update_parents_path_rule_witness :
    2 ∈ pathToRoot 5 ∧
    updateParents (fun _ => Node.Unused) 5 2 =
      nodeRule (updateParents (fun _ => Node.Unused) 5 (2 * 2 + 1))
        (updateParents (fun _ => Node.Unused) 5 (2 * 2 + 2)) :=
  ⟨by decide, c7_update_parents_path_rule (fun _ => Node.Unused) 5 2 (by decide)⟩

/-- C8 fails on the code: running `ActivePageTable::with` (backup = the
active P4 frame 100, whose recursive entry held `100*4096 | 3 = 409603`)
with the identity closure leaves P4[511] at the inactive frame
(`200*4096 | 3 = 819203`) and performs exactly one full TLB flush — the
restoration of the backup and the second flush required by the claim are
absent from the source. -/
theorem c8_with_no_restore_code_bug :
    chainState.mem 100 511 = 409603 ∧
    (withActive chainState ⟨5⟩ [] ⟨200, 1⟩ id).map
      (fun r => (r.1.mem 100 511, r.2)) = some (819203, 1) ∧
    (819203 : Nat) ≠ 409603 ∧
    (1 : Nat) ≠ 2 := by
  refine ⟨by decide, by decide, by decide, by decide⟩

/-- C10: `TinyAllocator::allocate` ignores its `num_pages` argument
entirely — for every request size it takes and returns the first stashed
one-page frame when any slot is occupied — and `deallocate` stores a frame
into the first empty slot. -/
theorem c10_tiny_allocator_ignores_num_pages :
    (∀ (t : TinyAllocator) (n m : Nat), tinyAllocate t n = tinyAllocate t m) ∧
    (∀ (n : Nat) (f : Frame) (b c : Option Frame),
      tinyAllocate ⟨some f, b, c⟩ n = (some f, ⟨none, b, c⟩)) ∧
    (∀ (n : Nat) (f : Frame) (c : Option Frame),
      tinyAllocate ⟨none, some f, c⟩ n = (some f, ⟨none, none, c⟩)) ∧
    (∀ (n : Nat) (f : Frame),
      tinyAllocate ⟨none, none, some f⟩ n = (some f, ⟨none, none, none⟩)) ∧
    (∀ (f : Frame) (b c : Option Frame),
      tinyDeallocate ⟨none, b, c⟩ f = ⟨some f, b, c⟩) ∧
    (∀ (f a : Frame) (c : Option Frame),
      tinyDeallocate ⟨some a, none, c⟩ f = ⟨some a, some f, c⟩) ∧
    (∀ (f a b : Frame),
      tinyDeallocate ⟨some a, some b, none⟩ f = ⟨some a, some b, some f⟩) := by
  refine ⟨?_, ?_, ?_, ?_, ?_, ?_, ?_⟩
  · intro t n m
    rcases t with ⟨_ | a, _ | b, _ | c⟩ <;> rfl
  · intro n f b c; rfl
  · intro n f c; rfl
  · intro n f; rfl
  · intro f b c
    rcases b with _ | b <;> rcases c with _ | c <;> rfl
  · intro f a c
    rcases c with _ | c <;> rfl
  · intro f a b; rfl
